import Mathlib

/-!
Shallow embedding of the SEO analyzer (src/seo.py): the per-page rule engine
`analyze_html`, the degraded finding built on fetch failure in `main`, the row
records `main` hands to the aggregator, and the aggregation helpers of
`generate_html_report` (severity key, meta-description pass count, primary
plugin mode, severity sort).  String primitives model the Python `str`
operations used by the code, working over the character list of a `String`.
-/

/-- Decimal digits of a Nat, most significant first; the first argument is
structural fuel bounding the number of digits. -/
def natDigitsAux : Nat → Nat → List Char
  | 0, _ => []
  | fuel + 1, n => if n = 0 then [] else natDigitsAux fuel (n / 10) ++ [Char.ofNat (48 + n % 10)]

/-- Decimal rendering of a Nat, as Python `str` produces it. -/
def natToStr (n : Nat) : String :=
  if n = 0 then "0" else ⟨natDigitsAux (n + 1) n⟩

/-- Model of Python `s.lower()` (ASCII range, which is all the code compares). -/
def lowerStr (s : String) : String :=
  ⟨s.data.map Char.toLower⟩

/-- Model of Python `s.strip()`: drop leading and trailing whitespace. -/
def trimChars (l : List Char) : List Char :=
  ((l.dropWhile Char.isWhitespace).reverse.dropWhile Char.isWhitespace).reverse

/-- Model of Python `s.strip()`. -/
def trimStr (s : String) : String :=
  ⟨trimChars s.data⟩

/-- Model of Python `len(s)`: number of code points. -/
def strLen (s : String) : Nat :=
  s.data.length

/-- Model of Python slicing `s[:n]`. -/
def takeStr (s : String) (n : Nat) : String :=
  ⟨s.data.take n⟩

/-- Substring occurrence over character lists. -/
def containsChars (needle : List Char) : List Char → Bool
  | [] => needle.isEmpty
  | c :: rest => needle.isPrefixOf (c :: rest) || containsChars needle rest

/-- Model of Python `needle in hay` on strings. -/
def containsStr (hay needle : String) : Bool :=
  containsChars needle.data hay.data

/-- Whether `pre` is a leading piece of `s` (Python `s.startswith(pre)`). -/
def startsStr (s pre : String) : Bool :=
  pre.data.isPrefixOf s.data

/-- Model of Python `sep.join(parts)`. -/
def joinSep (sep : String) : List String → String
  | [] => ""
  | [x] => x
  | x :: y :: rest => x ++ sep ++ joinSep sep (y :: rest)

/-- Model of Python `s.split(sep)` for a one-character separator. -/
def splitChars (sep : Char) : List Char → List (List Char)
  | [] => [[]]
  | c :: rest =>
    let r := splitChars sep rest
    if c = sep then [] :: r
    else
      match r with
      | [] => [[c]]
      | h :: t => (c :: h) :: t

/-- Origin of the current page, as the code computes it:
the Python expression is a slash-join of the first three slash-separated
pieces of the URL (scheme, empty piece, host with optional port). -/
def base_domain (url : String) : String :=
  joinSep "/" (((splitChars '/' url.data).take 3).map fun l => (⟨l⟩ : String))

/-- Whether the reference begins with a URL scheme (alpha first, then
alphanumerics or `+`, `-`, `.` up to a colon, before any slash). -/
def schemeTail : List Char → Bool
  | [] => false
  | c :: rest =>
    if c = ':' then true
    else (c.isAlpha || c.isDigit || c = '+' || c = '-' || c = '.') && schemeTail rest

/-- Scheme detection used by the `urljoin` model. -/
def hasSchemePrefix : List Char → Bool
  | [] => false
  | c :: rest => c.isAlpha && schemeTail rest

/-- Model of `urllib.parse.urljoin` restricted to the inputs the image rule
produces: `base` is always an origin with empty path (scheme and authority,
from `base_domain`).  A reference carrying its own scheme stays unchanged, a
protocol-relative reference takes the scheme of the base, an absolute-path
reference is appended to the origin, and any other non-empty reference is
resolved against the empty base path. -/
def urljoin (base rel : String) : String :=
  if rel = "" then base
  else if hasSchemePrefix rel.data then rel
  else if startsStr rel "//" then (⟨base.data.takeWhile (· ≠ ':')⟩ : String) ++ ":" ++ rel
  else if startsStr rel "/" then base ++ rel
  else base ++ "/" ++ rel

/-- One `img` element as BeautifulSoup exposes it to the loop: the `src` and
`alt` attribute values, absent attributes as `none`. -/
structure ImgTag where
  src : Option String
  alt : Option String
deriving DecidableEq, Repr

/-- A parsed page as the code consumes it: the raw markup for the textual
scans (noindex, plugin detection) plus the structural pieces each rule reads
from the soup.  `ldJsonScripts` lists the `.string` of each JSON-LD script
element, `none` for an empty or multi-child body. -/
structure HtmlDoc where
  raw : String
  title : Option String
  h1Texts : List String
  metaDescription : Option String
  hasOgTitle : Bool
  hasTwitterCard : Bool
  imgs : List ImgTag
  ldJsonScripts : List (Option String)
  hasBreadcrumbNavOrClass : Bool
deriving DecidableEq, Repr

/-- The per-page report dict built by `analyze_html` (and, on fetch failure,
by the except-branch of `main`).  `status` is an `Option` because the failure
branch never sets that key. -/
structure PageReport where
  title_tag : String
  h1_count : Nat
  h1_text : String
  meta_description : String
  noindex : Bool
  has_og : Bool
  has_twitter : Bool
  missing_alt_count : Nat
  missing_alt_images : List String
  has_breadcrumb_schema : Bool
  has_breadcrumb_html : Bool
  issues : List String
  issues_detail : List String
  seo_plugin : Option String
  status : Option String
deriving DecidableEq, Repr

/-- `detect_seo_plugin` of seo.py: case-insensitive substring checks over the
raw markup, first match wins. -/
def detect_seo_plugin (html : String) : Option String :=
  if containsStr (lowerStr html) "yoast" then some "Yoast SEO"
  else if containsStr (lowerStr html) "rank-math" || containsStr (lowerStr html) "data-rank-math" then
    some "Rank Math"
  else if containsStr (lowerStr html) "aioseo" then some "All in One SEO"
  else none

/-- Result of the title block: recorded tag text plus its issue pair. -/
structure TitleRes where
  tag : String
  iss : List String
  det : List String
deriving DecidableEq, Repr

/-- Title rule of `analyze_html`: strip the title text, record it, and flag
lengths below 30 or above 60. -/
def titleBlock : Option String → TitleRes
  | some raw =>
    let text := trimStr raw
    let n := strLen text
    if n < 30 then
      ⟨text, ["Title too short"], ["Title too short (" ++ natToStr n ++ " chars): " ++ text]⟩
    else if n > 60 then
      ⟨text, ["Title too long"], ["Title too long (" ++ natToStr n ++ " chars): " ++ text]⟩
    else ⟨text, [], []⟩
  | none => ⟨"", ["Missing <title>"], ["Missing <title> tag"]⟩

/-- Result of the H1 block: recorded first-heading text plus issue pair. -/
structure H1Res where
  text : String
  iss : List String
  det : List String
deriving DecidableEq, Repr

/-- H1 rule of `analyze_html`: zero headings raise the missing issue, more
than one raises the multiple issue with the stripped first text cut to 50
characters. -/
def h1Block : List String → H1Res
  | [] => ⟨"", ["Missing H1"], ["No H1 tag found"]⟩
  | h :: rest =>
    let text := trimStr h
    let c := rest.length + 1
    if c > 1 then
      ⟨text, ["Multiple H1s"],
       ["Multiple H1s (" ++ natToStr c ++ "): " ++ takeStr text 50 ++ "..."]⟩
    else ⟨text, [], []⟩

/-- Result of the meta-description block: stored value plus issue pair. -/
structure MetaRes where
  value : String
  iss : List String
  det : List String
deriving DecidableEq, Repr

/-- Meta-description rule of `analyze_html`: the tag must exist with truthy
content, otherwise the Missing sentinel is stored; a truthy content is
stripped and measured against 50 and 160. -/
def metaBlock : Option String → MetaRes
  | none => ⟨"Missing", ["Missing meta description"], ["Missing meta description tag"]⟩
  | some c =>
    if c = "" then ⟨"Missing", ["Missing meta description"], ["Missing meta description tag"]⟩
    else
      let d := trimStr c
      let n := strLen d
      if n < 50 then
        ⟨d, ["Meta desc too short"], ["Meta description too short (" ++ natToStr n ++ " chars)"]⟩
      else if n > 160 then
        ⟨d, ["Meta desc too long"], ["Meta description too long (" ++ natToStr n ++ " chars)"]⟩
      else ⟨d, [], []⟩

/-- Issue pair of a rule that records no extra value. -/
structure PairRes where
  iss : List String
  det : List String
deriving DecidableEq, Repr

/-- The textual noindex scan of `analyze_html` over the raw markup. -/
def noindexFlag (raw : String) : Bool :=
  containsStr (lowerStr raw) "<meta name=\"robots\" content=\"noindex" ||
  containsStr (lowerStr raw) "content=\"noindex"

/-- Noindex rule issue pair. -/
def noindexBlock (raw : String) : PairRes :=
  if noindexFlag raw then ⟨["NOINDEX"], ["Page is set to NOINDEX"]⟩ else ⟨[], []⟩

/-- Open Graph rule issue pair, from the presence of a meta og:title. -/
def ogBlock (present : Bool) : PairRes :=
  if present then ⟨[], []⟩ else ⟨["Missing OG"], ["Missing Open Graph tags"]⟩

/-- Twitter Card rule issue pair. -/
def twitterBlock (present : Bool) : PairRes :=
  if present then ⟨[], []⟩ else ⟨["Missing Twitter Card"], ["Missing Twitter Card meta tag"]⟩

/-- The image loop of `analyze_html`: keep, in order, the resolved URL of
every image that has a truthy src, is not a base64 GIF placeholder or a
spacer, and whose stripped alt is empty. -/
def missingAltOf (imgs : List ImgTag) (bd : String) : List String :=
  imgs.filterMap fun img =>
    match img.src with
    | none => none
    | some s =>
      if s = "" then none
      else if containsStr s "data:image/gif;base64" || containsStr (lowerStr s) "spacer" then none
      else if trimStr (img.alt.getD "") = "" then some (urljoin bd s)
      else none

/-- Image rule issue pair: one summary issue naming the count, detail lines
for the first five URLs and one more line when further URLs remain. -/
def imageBlock (missing : List String) : PairRes :=
  if missing = [] then ⟨[], []⟩
  else
    let c := missing.length
    ⟨[natToStr c ++ " images missing alt"],
     (missing.take 5).map (fun u => "Image missing alt: " ++ u) ++
       (if c > 5 then ["... and " ++ natToStr (c - 5) ++ " more"] else [])⟩

/-- The JSON-LD breadcrumb pattern the code searches for. -/
def bcPattern : String := "\"@type\":\"BreadcrumbList\""

/-- One loop step over a script body: a `none` body reproduces the Python
`in None` type error, a string body answers the substring test. -/
def scanScriptBody : Option String → Except Unit Bool
  | none => Except.error ()
  | some t => Except.ok (containsStr t bcPattern)

/-- The breadcrumb-schema loop of `analyze_html` with its try/except: an
erroring body is skipped, a match stops the scan. -/
def hasBreadcrumbSchemaLoop : List (Option String) → Bool
  | [] => false
  | s :: rest =>
    match scanScriptBody s with
    | Except.error _ => hasBreadcrumbSchemaLoop rest
    | Except.ok true => true
    | Except.ok false => hasBreadcrumbSchemaLoop rest

/-- Breadcrumb-schema rule issue pair. -/
def schemaBlock (scripts : List (Option String)) : PairRes :=
  if hasBreadcrumbSchemaLoop scripts then ⟨[], []⟩
  else ⟨["Missing breadcrumb schema"], ["Missing breadcrumb schema (JSON-LD)"]⟩

/-- `analyze_html` of seo.py over a parsed page: every rule evaluates, the
issue and detail lists are the in-order concatenation of the per-rule
contributions, and the remaining fields take the values the code assigns. -/
def analyze_html (doc : HtmlDoc) (url : String) : PageReport :=
  let bd := base_domain url
  let missing := missingAltOf doc.imgs bd
  let issues :=
    (titleBlock doc.title).iss ++ (h1Block doc.h1Texts).iss ++
    (metaBlock doc.metaDescription).iss ++ (noindexBlock doc.raw).iss ++
    (ogBlock doc.hasOgTitle).iss ++ (twitterBlock doc.hasTwitterCard).iss ++
    (imageBlock missing).iss ++ (schemaBlock doc.ldJsonScripts).iss
  { title_tag := (titleBlock doc.title).tag
    h1_count := doc.h1Texts.length
    h1_text := (h1Block doc.h1Texts).text
    meta_description := (metaBlock doc.metaDescription).value
    noindex := noindexFlag doc.raw
    has_og := doc.hasOgTitle
    has_twitter := doc.hasTwitterCard
    missing_alt_count := missing.length
    missing_alt_images := missing
    has_breadcrumb_schema := hasBreadcrumbSchemaLoop doc.ldJsonScripts
    has_breadcrumb_html := doc.hasBreadcrumbNavOrClass
    issues := issues
    issues_detail :=
      (titleBlock doc.title).det ++ (h1Block doc.h1Texts).det ++
      (metaBlock doc.metaDescription).det ++ (noindexBlock doc.raw).det ++
      (ogBlock doc.hasOgTitle).det ++ (twitterBlock doc.hasTwitterCard).det ++
      (imageBlock missing).det ++ (schemaBlock doc.ldJsonScripts).det
    seo_plugin := detect_seo_plugin doc.raw
    status := some (if issues = [] then "OK" else "ISSUE") }

instance {ε α : Type} [DecidableEq ε] [DecidableEq α] : DecidableEq (Except ε α)
  | Except.error a, Except.error b =>
    if h : a = b then isTrue (by rw [h]) else isFalse (by simp [h])
  | Except.error _, Except.ok _ => isFalse (by simp)
  | Except.ok _, Except.error _ => isFalse (by simp)
  | Except.ok a, Except.ok b =>
    if h : a = b then isTrue (by rw [h]) else isFalse (by simp [h])

/-- One page reference reaching the fetch loop of `main`, together with the
outcome of its fetch: the parsed document on success, or the text of the
raised exception on timeout, non-2xx status or transport error. -/
structure PageInput where
  ptype : String
  ptitle : String
  url : String
  fetch : Except String HtmlDoc
deriving DecidableEq, Repr

/-- The degraded report the except-branch of `main` substitutes for an
unreachable page; `e` is the stringified exception. -/
def failedReport (e : String) : PageReport :=
  { title_tag := ""
    h1_count := 0
    h1_text := ""
    meta_description := ""
    noindex := false
    has_og := false
    has_twitter := false
    missing_alt_count := 0
    missing_alt_images := []
    has_breadcrumb_schema := false
    has_breadcrumb_html := false
    issues := ["Failed to load: " ++ e]
    issues_detail := ["Failed to load: " ++ e]
    seo_plugin := none
    status := none }

/-- The body of the fetch loop of `main`: analyze the markup on success,
substitute the degraded report on failure. -/
def fetchAndAnalyze (p : PageInput) : PageReport :=
  match p.fetch with
  | Except.ok doc => analyze_html doc p.url
  | Except.error e => failedReport e

/-- One row of the `results` list of `main`: every report field rendered the
way the row dict renders it. -/
structure RowRecord where
  rowType : String
  title : String
  url : String
  pageTitle : String
  h1Count : Nat
  h1Text : String
  metaDescription : String
  noIndex : String
  ogTags : String
  twitterCard : String
  missingAltCount : Nat
  missingAltImageUrls : String
  breadcrumbSchema : String
  breadcrumbHtml : String
  seoPlugin : String
  issuesSummary : String
  issuesDetail : String
deriving DecidableEq, Repr

/-- Python `b and "Yes" or ...` rendering of the flag columns. -/
def yesNo (b : Bool) : String :=
  if b then "Yes" else "No"

/-- Python `report["seo_plugin"] or "Unknown"`: a missing or falsy plugin
renders as Unknown. -/
def orUnknown : Option String → String
  | none => "Unknown"
  | some s => if s = "" then "Unknown" else s

/-- The row dict `main` appends for one page. -/
def mkRow (p : PageInput) (rep : PageReport) : RowRecord :=
  { rowType := p.ptype
    title := p.ptitle
    url := p.url
    pageTitle := rep.title_tag
    h1Count := rep.h1_count
    h1Text := rep.h1_text
    metaDescription := rep.meta_description
    noIndex := yesNo rep.noindex
    ogTags := yesNo rep.has_og
    twitterCard := yesNo rep.has_twitter
    missingAltCount := rep.missing_alt_count
    missingAltImageUrls := joinSep "; " rep.missing_alt_images
    breadcrumbSchema := yesNo rep.has_breadcrumb_schema
    breadcrumbHtml := yesNo rep.has_breadcrumb_html
    seoPlugin := orUnknown rep.seo_plugin
    issuesSummary := if rep.issues = [] then "OK" else joinSep "; " rep.issues
    issuesDetail := joinSep " | " rep.issues_detail }

/-- The whole fetch loop of `main`: one row per page, failures included. -/
def processPages (ps : List PageInput) : List RowRecord :=
  ps.map fun p => mkRow p (fetchAndAnalyze p)

/-- The inner `severity` function of `generate_html_report`: substring checks
over the joined detail and summary columns. -/
def severity (r : RowRecord) : Nat :=
  if containsStr (lowerStr r.issuesDetail) "noindex" || containsStr r.issuesDetail "Missing H1" then 2
  else if containsStr r.issuesSummary "OK" then 0
  else 1

/-- The double-checked meta-description pass condition of
`generate_html_report`. -/
def metaGoodPred (r : RowRecord) : Bool :=
  !containsStr r.issuesDetail "Missing meta description tag" &&
  !containsStr r.issuesDetail "Meta description too short" &&
  !containsStr r.issuesDetail "Meta description too long" &&
  r.metaDescription != "Missing"

/-- The `meta_good` counter of `generate_html_report`. -/
def meta_good (rs : List RowRecord) : Nat :=
  (rs.filter metaGoodPred).length

/-- Python `plugins.count(x)`. -/
def countOf (l : List String) (x : String) : Nat :=
  (l.filter (fun y => y = x)).length

/-- Distinct values in first-occurrence order, with structural fuel bounding
the number of rounds. -/
def dedupAux : Nat → List String → List String
  | 0, _ => []
  | _, [] => []
  | fuel + 1, x :: xs => x :: dedupAux fuel (xs.filter (fun y => y ≠ x))

/-- Distinct values of a list in first-occurrence order; a deterministic
model of iterating Python `set(plugins)`. -/
def dedupKeepFirst (l : List String) : List String :=
  dedupAux l.length l

/-- Model of `max(set(plugins), key=plugins.count)`: a distinct value of
maximal multiplicity.  Among equally frequent values the Python set order is
unspecified; this model keeps the first-seen one, and the theorems below only
evaluate it where the mode is unique. -/
def modeOf (plugins : List String) : Option String :=
  (dedupKeepFirst plugins).foldl
    (fun acc x =>
      match acc with
      | none => some x
      | some y => if countOf plugins y < countOf plugins x then some x else acc)
    none

/-- The primary-plugin computation of `generate_html_report` over the rows:
keep the truthy SEO Plugin column values, then take the mode, absent when the
kept list is empty. -/
def primary_plugin (rs : List RowRecord) : Option String :=
  let plugins := (rs.filter (fun r => r.seoPlugin != "")).map (fun r => r.seoPlugin)
  if plugins = [] then none else modeOf plugins

/-- Modelled from the spec: `primarySeoPlugin` as §4.4 words it, the mode over
the non-empty `detectedSeoPlugin` values of the findings themselves, absent
when no page detected a plugin.  Stated for comparison with
`primary_plugin`. -/
def claimPrimaryPlugin (reports : List PageReport) : Option String :=
  let detected := reports.filterMap (fun rep => rep.seo_plugin)
  if detected = [] then none else modeOf detected

/-- Modelled from the spec: the severity classifier of §4.4, a pure function
of the finding, stated for comparison with `severity`. -/
def specSeverity (rep : PageReport) : Nat :=
  if rep.noindex || rep.h1_count = 0 then 2
  else if rep.issues ≠ [] then 1
  else 0

/-- Stable descending insertion step: the new element passes over strictly
smaller keys only, so equal keys keep their original relative order. -/
def insertDesc (key : α → Nat) (x : α) : List α → List α
  | [] => [x]
  | y :: ys => if key y ≤ key x then x :: y :: ys else y :: insertDesc key x ys

/-- Stable sort by a Nat key, descending: the semantics of Python
`list.sort(key=..., reverse=True)`, which is a stable sort. -/
def sortDescStable (key : α → Nat) : List α → List α
  | [] => []
  | x :: xs => insertDesc key x (sortDescStable key xs)

/-- The `results.sort(key=severity, reverse=True)` call of
`generate_html_report`. -/
def sortResults (rs : List RowRecord) : List RowRecord :=
  sortDescStable severity rs

/-- A page URL used by the concrete instances below. -/
def pageUrl : String := "https://example.com/blog/post"

/-- A title text of 36 characters, inside the 30 to 60 band. -/
def cleanTitle : String := "abcdefghijklmnopqrstuvwxyz0123456789"

/-- A meta description of 60 characters, inside the 50 to 160 band. -/
def cleanMeta : String := "abcdefghijklmnopqrstuvwxyz0123456789ABCDEFGHIJKLMNOPQRSTUVWX"

/-- A page that trips no rule at all. -/
def docClean : HtmlDoc :=
  { raw := ""
    title := some cleanTitle
    h1Texts := ["Welcome"]
    metaDescription := some cleanMeta
    hasOgTitle := true
    hasTwitterCard := true
    imgs := []
    ldJsonScripts := [some "\"@type\":\"BreadcrumbList\""]
    hasBreadcrumbNavOrClass := false }

/-- The clean page with its level-1 headings removed. -/
def docNoH1 : HtmlDoc :=
  { docClean with h1Texts := [] }

/-- The clean page whose raw markup carries a robots noindex meta tag. -/
def docNoindex : HtmlDoc :=
  { docClean with raw := "<meta name=\"robots\" content=\"noindex\">" }

/-- The clean page without the Open Graph title. -/
def docWarn : HtmlDoc :=
  { docClean with hasOgTitle := false }

/-- The clean page with two content images lacking alt text. -/
def docTwoImgs : HtmlDoc :=
  { docClean with imgs := [⟨some "/a.png", none⟩, ⟨some "/b.png", some ""⟩] }

/-- The clean page with an exempt base64 GIF placeholder and one real image
with an empty alt. -/
def docAltImgs : HtmlDoc :=
  { docClean with imgs := [⟨some "data:image/gif;base64,AAAA", none⟩, ⟨some "/img/photo.jpg", some ""⟩] }

/-- The clean page whose raw markup mentions yoast. -/
def docYoast : HtmlDoc :=
  { docClean with raw := "<script src=yoast-seo.js></script>" }

/-- The clean page whose title text carries surrounding whitespace. -/
def docPaddedTitle : HtmlDoc :=
  { docClean with title := some " Some reasonably long page title here " }

/-- The clean page whose JSON-LD scripts all have unusable bodies. -/
def docBadScripts : HtmlDoc :=
  { docClean with ldJsonScripts := [none, some "", none] }

/-- How many more detail lines than issue lines the image rule produces for a
given count of images lacking alt text. -/
def detailSurplus (c : Nat) : Nat :=
  if c ≤ 1 then 0 else min 5 c + (if 5 < c then 1 else 0) - 1

/-- A two-page batch whose second fetch times out, for the C4 witness. -/
def pagesWithFailure : List PageInput :=
  [⟨"post", "A", pageUrl, Except.ok docClean⟩,
   ⟨"page", "B", "https://example.com/x", Except.error "timeout"⟩]

/-- The three-page batch of the C5 example, in crawl order OK, CRITICAL,
WARNING (clean page, noindex page, page missing Open Graph). -/
def crawlOrderPages : List PageInput :=
  [⟨"post", "A", pageUrl, Except.ok docClean⟩,
   ⟨"post", "B", pageUrl, Except.ok docNoindex⟩,
   ⟨"post", "C", pageUrl, Except.ok docWarn⟩]


lemma titleBlock_len (t : Option String) :
    (titleBlock t).det.length = (titleBlock t).iss.length := by
  cases t with
  | none => rfl
  | some r =>
    simp only [titleBlock]
    split
    · rfl
    · split <;> rfl

lemma h1Block_len (hs : List String) :
    (h1Block hs).det.length = (h1Block hs).iss.length := by
  cases hs with
  | nil => rfl
  | cons h rest => simp only [h1Block]; split <;> rfl

lemma metaBlock_len (m : Option String) :
    (metaBlock m).det.length = (metaBlock m).iss.length := by
  cases m with
  | none => rfl
  | some c =>
    simp only [metaBlock]
    split
    · rfl
    · split
      · rfl
      · split <;> rfl

lemma noindexBlock_len (raw : String) :
    (noindexBlock raw).det.length = (noindexBlock raw).iss.length := by
  simp only [noindexBlock]; split <;> rfl

lemma ogBlock_len (b : Bool) : (ogBlock b).det.length = (ogBlock b).iss.length := by
  cases b <;> rfl

lemma twitterBlock_len (b : Bool) :
    (twitterBlock b).det.length = (twitterBlock b).iss.length := by
  cases b <;> rfl

lemma schemaBlock_len (scripts : List (Option String)) :
    (schemaBlock scripts).det.length = (schemaBlock scripts).iss.length := by
  simp only [schemaBlock]; split <;> rfl

lemma imageBlock_iss_len (m : List String) :
    (imageBlock m).iss.length = if m.length = 0 then 0 else 1 := by
  simp only [imageBlock]
  split
  · simp_all
  · simp_all [List.length_eq_zero]

lemma imageBlock_det_len (m : List String) :
    (imageBlock m).det.length =
      if m.length = 0 then 0 else min 5 m.length + (if 5 < m.length then 1 else 0) := by
  simp only [imageBlock]
  split
  · simp_all
  · have hne : ¬ m.length = 0 := by simp_all [List.length_eq_zero]
    simp only [if_neg hne, List.length_append, List.length_map, List.length_take]
    split <;> simp


/-- C1, amended.  The issues and issuesDetail lists of `analyze_html` are NOT
always of equal length: every rule contributes matched pairs except the image
rule, whose detail side lists up to five URLs plus an overflow line against a
single summary issue.  The lists have equal length exactly in the stated
special case, namely whenever at most one image lacks alt text; in general
the detail list exceeds the issue list by `detailSurplus` of the missing-alt
count. -/
theorem analyze_issue_detail_lengths (doc : HtmlDoc) (url : String) :
    (analyze_html doc url).issues_detail.length =
      (analyze_html doc url).issues.length +
        detailSurplus (analyze_html doc url).missing_alt_count ∧
    ((analyze_html doc url).missing_alt_count ≤ 1 →
      (analyze_html doc url).issues_detail.length = (analyze_html doc url).issues.length) := by
  have hmain :
      (analyze_html doc url).issues_detail.length =
        (analyze_html doc url).issues.length +
          detailSurplus (analyze_html doc url).missing_alt_count := by
    have key : ∀ c : Nat,
        (if c = 0 then 0 else min 5 c + if 5 < c then 1 else 0) =
          (if c = 0 then 0 else 1) + detailSurplus c := by
      intro c
      rcases Nat.eq_zero_or_pos c with h | h
      · simp [h, detailSurplus]
      · rcases le_or_lt c 5 with h5 | h5
        · have hmin : min 5 c = c := Nat.min_eq_right h5
          simp only [detailSurplus, hmin, if_neg (Nat.pos_iff_ne_zero.mp h),
            if_neg (not_lt.mpr h5)]
          split <;> omega
        · have hmin : min 5 c = 5 := Nat.min_eq_left (le_of_lt h5)
          simp only [detailSurplus, hmin, if_neg (Nat.pos_iff_ne_zero.mp h), if_pos h5]
          split <;> omega
    simp only [analyze_html, List.length_append, titleBlock_len, h1Block_len, metaBlock_len,
      noindexBlock_len, ogBlock_len, twitterBlock_len, schemaBlock_len, imageBlock_iss_len,
      imageBlock_det_len]
    rw [key]
    omega
  refine ⟨hmain, fun hle => ?_⟩
  rw [hmain]
  have : detailSurplus (analyze_html doc url).missing_alt_count = 0 := by
    simp [detailSurplus, hle]
  omega

/-- C1, counterexample.  On a page with two images lacking alt text the image
rule appends one issue but two detail lines, so the two lists differ in
length (1 versus 2 here). -/
theorem analyze_issue_detail_lengths_cex :
    (analyze_html docTwoImgs pageUrl).issues.length = 1 ∧
    (analyze_html docTwoImgs pageUrl).issues_detail.length = 2 ∧
    (analyze_html docTwoImgs pageUrl).issues.length ≠
      (analyze_html docTwoImgs pageUrl).issues_detail.length := by
  decide

/-- C2.  The severity classifier of `generate_html_report` checks the string
Missing H1 against the joined Issues Detail column, but the detail text the
missing-H1 rule writes is No H1 tag found (Missing H1 goes to the summary
column), so a page with zero level-1 headings and no other finding is
classified 1 (WARNING) by the code, while the intended classifier of the
spec, `specSeverity`, classifies the same finding 2 (CRITICAL).  A finding
whose only issue is multiple H1 is indeed not critical, and a noindex finding
is critical, matching the claim on those points. -/
theorem severity_zero_h1_bug :
    (analyze_html docNoH1 pageUrl).h1_count = 0 ∧
    (analyze_html docNoH1 pageUrl).noindex = false ∧
    specSeverity (analyze_html docNoH1 pageUrl) = 2 ∧
    severity (mkRow ⟨"post", "T", pageUrl, Except.ok docNoH1⟩ (analyze_html docNoH1 pageUrl)) = 1 ∧
    severity (mkRow ⟨"post", "T", pageUrl, Except.ok docNoindex⟩ (analyze_html docNoindex pageUrl)) = 2 ∧
    severity (mkRow ⟨"post", "T", pageUrl, Except.ok docClean⟩ (analyze_html docClean pageUrl)) = 0 := by
  decide

/-- C4.  Batch processing survives a failed fetch: the loop yields one row
per page regardless of failures, and the page whose fetch raised gets the
degraded finding whose only issue (and only detail line) is the
Failed-to-load text, every other field at its empty, zero or false default,
with no plugin detected. -/
theorem fetch_failure_degraded (ps : List PageInput) (i : Nat) (h : i < ps.length)
    (e : String) (hfail : (ps.get ⟨i, h⟩).fetch = Except.error e) :
    (processPages ps).length = ps.length ∧
    (fetchAndAnalyze (ps.get ⟨i, h⟩)).issues = ["Failed to load: " ++ e] ∧
    (fetchAndAnalyze (ps.get ⟨i, h⟩)).issues_detail = ["Failed to load: " ++ e] ∧
    (fetchAndAnalyze (ps.get ⟨i, h⟩)).issues.length = 1 ∧
    (fetchAndAnalyze (ps.get ⟨i, h⟩)).issues_detail.length = 1 ∧
    (fetchAndAnalyze (ps.get ⟨i, h⟩)).title_tag = "" ∧
    (fetchAndAnalyze (ps.get ⟨i, h⟩)).h1_count = 0 ∧
    (fetchAndAnalyze (ps.get ⟨i, h⟩)).h1_text = "" ∧
    (fetchAndAnalyze (ps.get ⟨i, h⟩)).meta_description = "" ∧
    (fetchAndAnalyze (ps.get ⟨i, h⟩)).noindex = false ∧
    (fetchAndAnalyze (ps.get ⟨i, h⟩)).has_og = false ∧
    (fetchAndAnalyze (ps.get ⟨i, h⟩)).has_twitter = false ∧
    (fetchAndAnalyze (ps.get ⟨i, h⟩)).missing_alt_count = 0 ∧
    (fetchAndAnalyze (ps.get ⟨i, h⟩)).missing_alt_images = [] ∧
    (fetchAndAnalyze (ps.get ⟨i, h⟩)).has_breadcrumb_schema = false ∧
    (fetchAndAnalyze (ps.get ⟨i, h⟩)).has_breadcrumb_html = false ∧
    (fetchAndAnalyze (ps.get ⟨i, h⟩)).seo_plugin = none := by
  have hrep : fetchAndAnalyze (ps.get ⟨i, h⟩) = failedReport e := by
    unfold fetchAndAnalyze
    rw [hfail]
  refine ⟨by simp [processPages], ?_⟩
  rw [hrep]
  simp [failedReport]


/-- C4, witness: the degraded-finding theorem applied to a concrete two-page
batch whose second fetch fails. -/
theorem fetch_failure_degraded_witness :
    (processPages pagesWithFailure).length = 2 ∧
    (fetchAndAnalyze (pagesWithFailure.get ⟨1, by decide⟩)).issues = ["Failed to load: timeout"] ∧
    (fetchAndAnalyze (pagesWithFailure.get ⟨1, by decide⟩)).issues_detail.length = 1 ∧
    (fetchAndAnalyze (pagesWithFailure.get ⟨1, by decide⟩)).meta_description = "" := by
  have h := fetch_failure_degraded pagesWithFailure 1 (by decide) "timeout" (by decide)
  exact ⟨h.1.trans (by decide), h.2.1, h.2.2.2.2.1, h.2.2.2.2.2.2.2.2.1⟩

lemma insertDesc_perm (key : α → Nat) (x : α) (l : List α) :
    List.Perm (insertDesc key x l) (x :: l) := by
  induction l with
  | nil => rfl
  | cons y ys ih =>
    simp only [insertDesc]
    split
    · rfl
    · exact (List.Perm.cons y ih).trans (List.Perm.swap x y ys)

lemma sortDescStable_perm (key : α → Nat) (l : List α) :
    List.Perm (sortDescStable key l) l := by
  induction l with
  | nil => rfl
  | cons x xs ih =>
    exact (insertDesc_perm key x (sortDescStable key xs)).trans (List.Perm.cons x ih)

lemma insertDesc_pairwise (key : α → Nat) (x : α) (l : List α)
    (h : List.Pairwise (fun a b => key b ≤ key a) l) :
    List.Pairwise (fun a b => key b ≤ key a) (insertDesc key x l) := by
  induction l with
  | nil => simp [insertDesc]
  | cons y ys ih =>
    simp only [insertDesc]
    split
    · rename_i hkey
      refine List.Pairwise.cons ?_ h
      intro z hz
      rcases List.mem_cons.mp hz with rfl | hz
      · exact hkey
      · exact le_trans (List.rel_of_pairwise_cons h hz) hkey
    · rename_i hkey
      refine List.Pairwise.cons ?_ (ih (List.Pairwise.sublist (List.sublist_cons_self y ys) h))
      intro z hz
      have hz2 := (insertDesc_perm key x ys).mem_iff.mp hz
      rcases List.mem_cons.mp hz2 with rfl | hz3
      · omega
      · exact List.rel_of_pairwise_cons h hz3

lemma sortDescStable_pairwise (key : α → Nat) (l : List α) :
    List.Pairwise (fun a b => key b ≤ key a) (sortDescStable key l) := by
  induction l with
  | nil => exact List.Pairwise.nil
  | cons x xs ih => exact insertDesc_pairwise key x (sortDescStable key xs) ih

lemma insertDesc_filter (key : α → Nat) (x : α) (l : List α) (k : Nat) :
    (insertDesc key x l).filter (fun a => key a == k) =
      if key x = k then x :: l.filter (fun a => key a == k)
      else l.filter (fun a => key a == k) := by
  induction l with
  | nil => simp [insertDesc, List.filter_cons, beq_iff_eq]
  | cons y ys ih =>
    simp only [insertDesc]
    split
    · rename_i hkey
      by_cases hx : key x = k
      · simp [List.filter_cons, beq_iff_eq, hx]
      · by_cases hy : key y = k
        · simp [List.filter_cons, beq_iff_eq, hx, hy]
        · simp [List.filter_cons, beq_iff_eq, hx, hy]
    · rename_i hkey
      by_cases hx : key x = k
      · by_cases hy : key y = k
        · omega
        · simp [List.filter_cons, beq_iff_eq, hx, hy, ih]
      · by_cases hy : key y = k
        · simp [List.filter_cons, beq_iff_eq, hx, hy, ih]
        · simp [List.filter_cons, beq_iff_eq, hx, hy, ih]

lemma sortDescStable_filter (key : α → Nat) (l : List α) (k : Nat) :
    (sortDescStable key l).filter (fun a => key a == k) =
      l.filter (fun a => key a == k) := by
  induction l with
  | nil => rfl
  | cons x xs ih =>
    simp only [sortDescStable, insertDesc_filter, ih]
    by_cases hx : key x = k
    · simp [List.filter_cons, hx]
    · simp [List.filter_cons, hx]


/-- C5.  The aggregator sorts the rows by the severity key descending with a
stable sort: the output is a permutation of the input, consecutive rows have
non-increasing severity, and for every severity value the rows of that
severity appear exactly in their original crawl order (the filter at each key
is unchanged).  On the concrete three-page batch with crawl-order severities
OK, CRITICAL, WARNING, the sorted output is CRITICAL, WARNING, OK. -/
theorem aggregator_sorts_by_severity :
    (∀ rs : List RowRecord,
      List.Perm (sortResults rs) rs ∧
      List.Pairwise (fun a b => severity b ≤ severity a) (sortResults rs) ∧
      ∀ k, (sortResults rs).filter (fun r => severity r == k) =
        rs.filter (fun r => severity r == k)) ∧
    severity ((processPages crawlOrderPages).get ⟨0, by decide⟩) = 0 ∧
    severity ((processPages crawlOrderPages).get ⟨1, by decide⟩) = 2 ∧
    severity ((processPages crawlOrderPages).get ⟨2, by decide⟩) = 1 ∧
    sortResults (processPages crawlOrderPages) =
      [(processPages crawlOrderPages).get ⟨1, by decide⟩,
       (processPages crawlOrderPages).get ⟨2, by decide⟩,
       (processPages crawlOrderPages).get ⟨0, by decide⟩] := by
  refine ⟨fun rs => ⟨sortDescStable_perm severity rs, sortDescStable_pairwise severity rs,
    fun k => sortDescStable_filter severity rs k⟩, ?_, ?_, ?_, ?_⟩ <;> decide

lemma hasBreadcrumbSchemaLoop_eq (scripts : List (Option String)) :
    hasBreadcrumbSchemaLoop scripts =
      scripts.any fun s =>
        match s with
        | none => false
        | some t => containsStr t bcPattern := by
  induction scripts with
  | nil => rfl
  | cons s rest ih =>
    cases s with
    | none => simpa [hasBreadcrumbSchemaLoop, scanScriptBody] using ih
    | some t =>
      cases hct : containsStr t bcPattern <;>
        simp [hasBreadcrumbSchemaLoop, scanScriptBody, hct, ih]

lemma hasBreadcrumbSchemaLoop_degenerate (scripts : List (Option String))
    (h : ∀ s ∈ scripts, s = none ∨ s = some "") :
    hasBreadcrumbSchemaLoop scripts = false := by
  rw [hasBreadcrumbSchemaLoop_eq]
  rw [List.any_eq_false]
  intro s hs
  rcases h s hs with rfl | rfl
  · simp
  · decide

/-- C6.  The breadcrumb-schema scan never aborts the analysis: the per-script
try/except turns the type error raised when a script body is unavailable into
a skip, so a script whose `scanScriptBody` errors contributes nothing; the
whole loop is the pure any-over-scripts test; and on a page every one of
whose JSON-LD bodies is unusable (absent or empty), `analyze_html` still
returns a full finding, with the schema flag degraded to false and the
missing-schema issue raised. -/
theorem breadcrumb_scan_never_fails :
    (∀ rest : List (Option String),
      scanScriptBody none = Except.error () ∧
      hasBreadcrumbSchemaLoop (none :: rest) = hasBreadcrumbSchemaLoop rest) ∧
    (∀ scripts : List (Option String),
      hasBreadcrumbSchemaLoop scripts =
        scripts.any fun s =>
          match s with
          | none => false
          | some t => containsStr t bcPattern) ∧
    (∀ (doc : HtmlDoc) (url : String),
      (∀ s ∈ doc.ldJsonScripts, s = none ∨ s = some "") →
      (analyze_html doc url).has_breadcrumb_schema = false ∧
      "Missing breadcrumb schema" ∈ (analyze_html doc url).issues) := by
  refine ⟨fun rest => ⟨rfl, rfl⟩, hasBreadcrumbSchemaLoop_eq, fun doc url h => ?_⟩
  have hloop := hasBreadcrumbSchemaLoop_degenerate doc.ldJsonScripts h
  constructor
  · simp [analyze_html, hloop]
  · simp [analyze_html, schemaBlock, hloop, List.mem_append]

/-- C6, witness: the tolerance theorem applied to the concrete page whose
JSON-LD script bodies are all unusable. -/
theorem breadcrumb_scan_never_fails_witness :
    (analyze_html docBadScripts pageUrl).has_breadcrumb_schema = false ∧
    "Missing breadcrumb schema" ∈ (analyze_html docBadScripts pageUrl).issues :=
  breadcrumb_scan_never_fails.2.2 docBadScripts pageUrl (by decide)

lemma orUnknown_ne_empty (o : Option String) : orUnknown o ≠ "" := by
  cases o with
  | none => decide
  | some s =>
    simp only [orUnknown]
    split
    · decide
    · assumption

lemma mode_foldl_isSome (plugins : List String) :
    ∀ (l : List String) (acc : Option String), acc.isSome = true →
      (l.foldl
        (fun acc x =>
          match acc with
          | none => some x
          | some y => if countOf plugins y < countOf plugins x then some x else acc)
        acc).isSome = true := by
  intro l
  induction l with
  | nil => intro acc h; exact h
  | cons x xs ih =>
    intro acc h
    rcases acc with _ | y
    · simp at h
    · simp only [List.foldl_cons]
      split
      · exact ih _ rfl
      · exact ih _ rfl

lemma modeOf_cons_isSome (x : String) (xs : List String) :
    (modeOf (x :: xs)).isSome = true := by
  simp only [modeOf, dedupKeepFirst, List.length_cons, dedupAux, List.foldl_cons]
  exact mode_foldl_isSome (x :: xs) _ (some x) rfl

/-- C3, amended.  The primary-plugin computation is the mode over one value
per page, where a page with no detected plugin contributes the string
Unknown (because `main` renders the SEO Plugin column as
`seo_plugin or "Unknown"` and the truthiness filter of
`generate_html_report` then keeps that non-empty string); the result is
absent exactly when the batch has no pages at all, not when no page detected
a plugin. -/
theorem primary_plugin_amended (ps : List PageInput) :
    primary_plugin (processPages ps) =
      (if ps = [] then none
       else modeOf (ps.map fun p => orUnknown (fetchAndAnalyze p).seo_plugin)) ∧
    (primary_plugin (processPages ps) = none ↔ ps = []) := by
  have hfilter : (processPages ps).filter (fun r => r.seoPlugin != "") = processPages ps := by
    rw [List.filter_eq_self]
    intro r hr
    rcases List.mem_map.mp hr with ⟨p, _, rfl⟩
    exact bne_iff_ne.mpr (orUnknown_ne_empty _)
  have hmap : (processPages ps).map (fun r => r.seoPlugin) =
      ps.map fun p => orUnknown (fetchAndAnalyze p).seo_plugin := by
    simp [processPages, List.map_map, mkRow]
  have hmain : primary_plugin (processPages ps) =
      (if ps = [] then none
       else modeOf (ps.map fun p => orUnknown (fetchAndAnalyze p).seo_plugin)) := by
    simp only [primary_plugin, hfilter, hmap]
    rcases ps with _ | ⟨p, rest⟩
    · simp
    · simp only [List.map_cons]
      rw [if_neg (List.cons_ne_nil _ _), if_neg (List.cons_ne_nil _ _)]
  refine ⟨hmain, ?_⟩
  rw [hmain]
  rcases ps with _ | ⟨p, rest⟩
  · simp
  · rw [if_neg (List.cons_ne_nil _ _)]
    simp only [List.map_cons]
    constructor
    · intro hnone
      have hs := modeOf_cons_isSome (orUnknown (fetchAndAnalyze p).seo_plugin)
        (rest.map fun q => orUnknown (fetchAndAnalyze q).seo_plugin)
      rw [hnone] at hs
      simp at hs
    · intro hcons
      exact absurd hcons (List.cons_ne_nil _ _)

/-- C3, counterexample.  In a three-page batch where two pages detect no
plugin and one detects Yoast, the code computes Unknown as the primary
plugin (the undetected pages contribute the string Unknown to the mode),
while the mode over only the non-empty detected values, as the claim states
it (`claimPrimaryPlugin`), is Yoast SEO; the two computations disagree and
the code result is not absent. -/
theorem primary_plugin_cex :
    primary_plugin (processPages
      [⟨"post", "A", pageUrl, Except.ok docClean⟩,
       ⟨"post", "B", pageUrl, Except.ok docClean⟩,
       ⟨"post", "C", pageUrl, Except.ok docYoast⟩]) = some "Unknown" ∧
    claimPrimaryPlugin
      [fetchAndAnalyze ⟨"post", "A", pageUrl, Except.ok docClean⟩,
       fetchAndAnalyze ⟨"post", "B", pageUrl, Except.ok docClean⟩,
       fetchAndAnalyze ⟨"post", "C", pageUrl, Except.ok docYoast⟩] = some "Yoast SEO" := by
  decide

lemma mem_analyze_issues {doc : HtmlDoc} {url : String} {x : String} :
    x ∈ (analyze_html doc url).issues ↔
      x ∈ (titleBlock doc.title).iss ∨ x ∈ (h1Block doc.h1Texts).iss ∨
      x ∈ (metaBlock doc.metaDescription).iss ∨ x ∈ (noindexBlock doc.raw).iss ∨
      x ∈ (ogBlock doc.hasOgTitle).iss ∨ x ∈ (twitterBlock doc.hasTwitterCard).iss ∨
      x ∈ (imageBlock (missingAltOf doc.imgs (base_domain url))).iss ∨
      x ∈ (schemaBlock doc.ldJsonScripts).iss := by
  simp [analyze_html, List.mem_append, or_assoc]

lemma titleBlock_iss_cases (t : Option String) (x : String) (h : x ∈ (titleBlock t).iss) :
    x = "Title too short" ∨ x = "Title too long" ∨ x = "Missing <title>" := by
  cases t with
  | none =>
    simp [titleBlock] at h
    simp [h]
  | some r =>
    simp only [titleBlock] at h
    split at h
    · simp at h
      simp [h]
    · split at h
      · simp at h
        simp [h]
      · simp at h

lemma h1Block_iss_cases (hs : List String) (x : String) (h : x ∈ (h1Block hs).iss) :
    x = "Multiple H1s" ∨ x = "Missing H1" := by
  cases hs with
  | nil =>
    simp [h1Block] at h
    simp [h]
  | cons a rest =>
    simp only [h1Block] at h
    split at h
    · simp at h
      simp [h]
    · simp at h

lemma metaBlock_iss_cases (m : Option String) (x : String) (h : x ∈ (metaBlock m).iss) :
    x = "Meta desc too short" ∨ x = "Meta desc too long" ∨ x = "Missing meta description" := by
  cases m with
  | none =>
    simp [metaBlock] at h
    simp [h]
  | some c =>
    simp only [metaBlock] at h
    split at h
    · simp at h
      simp [h]
    · split at h
      · simp at h
        simp [h]
      · split at h
        · simp at h
          simp [h]
        · simp at h

lemma noindexBlock_iss_cases (raw : String) (x : String) (h : x ∈ (noindexBlock raw).iss) :
    x = "NOINDEX" := by
  simp only [noindexBlock] at h
  split at h
  · simpa using h
  · simp at h

lemma ogBlock_iss_cases (b : Bool) (x : String) (h : x ∈ (ogBlock b).iss) :
    x = "Missing OG" := by
  cases b with
  | false =>
    simp [ogBlock] at h
    simp [h]
  | true => simp [ogBlock] at h

lemma twitterBlock_iss_cases (b : Bool) (x : String) (h : x ∈ (twitterBlock b).iss) :
    x = "Missing Twitter Card" := by
  cases b with
  | false =>
    simp [twitterBlock] at h
    simp [h]
  | true => simp [twitterBlock] at h

lemma schemaBlock_iss_cases (scripts : List (Option String)) (x : String)
    (h : x ∈ (schemaBlock scripts).iss) : x = "Missing breadcrumb schema" := by
  simp only [schemaBlock] at h
  split at h
  · simp at h
  · simpa using h

lemma imageBlock_iss_cases (m : List String) (x : String) (h : x ∈ (imageBlock m).iss) :
    ∃ c, x = natToStr c ++ " images missing alt" := by
  simp only [imageBlock] at h
  split at h
  · simp at h
  · simp at h
    exact ⟨m.length, h⟩

lemma natToStr_data_len (n : Nat) : 1 ≤ (natToStr n).data.length := by
  by_cases h : n = 0
  · subst h
    decide
  · have hrepr : natToStr n = ⟨natDigitsAux (n + 1) n⟩ := by simp [natToStr, h]
    rw [hrepr]
    show 1 ≤ (natDigitsAux (n + 1) n).length
    rw [natDigitsAux, if_neg h]
    simp

lemma imgIssue_ne (c : Nat) (s : String)
    (hne : s.data.drop (s.data.length - 19) ≠ (" images missing alt" : String).data) :
    natToStr c ++ " images missing alt" ≠ s := by
  intro heq
  apply hne
  have hdata := congrArg String.data heq
  rw [String.data_append] at hdata
  have h19 : (" images missing alt" : String).data.length = 19 := by decide
  have hslen : s.data.length = (natToStr c).data.length + 19 := by
    rw [← hdata, List.length_append, h19]
  have hpre : s.data.length - 19 = (natToStr c).data.length := by omega
  rw [hpre, ← hdata, List.drop_left]

lemma meta_mem_iff (doc : HtmlDoc) (url : String) (x : String)
    (hshape : x = "Meta desc too short" ∨ x = "Meta desc too long" ∨
      x = "Missing meta description") :
    (x ∈ (analyze_html doc url).issues ↔ x ∈ (metaBlock doc.metaDescription).iss) := by
  rw [mem_analyze_issues]
  constructor
  · rintro (h | h | h | h | h | h | h | h)
    · rcases titleBlock_iss_cases _ _ h with h2 | h2 | h2 <;>
        rcases hshape with rfl | rfl | rfl <;> exact absurd h2 (by decide)
    · rcases h1Block_iss_cases _ _ h with h2 | h2 <;>
        rcases hshape with rfl | rfl | rfl <;> exact absurd h2 (by decide)
    · exact h
    · have h2 := noindexBlock_iss_cases _ _ h
      rcases hshape with rfl | rfl | rfl <;> exact absurd h2 (by decide)
    · have h2 := ogBlock_iss_cases _ _ h
      rcases hshape with rfl | rfl | rfl <;> exact absurd h2 (by decide)
    · have h2 := twitterBlock_iss_cases _ _ h
      rcases hshape with rfl | rfl | rfl <;> exact absurd h2 (by decide)
    · rcases imageBlock_iss_cases _ _ h with ⟨k, hk⟩
      rcases hshape with rfl | rfl | rfl <;>
        exact absurd hk.symm (imgIssue_ne k _ (by decide))
    · have h2 := schemaBlock_iss_cases _ _ h
      rcases hshape with rfl | rfl | rfl <;> exact absurd h2 (by decide)
  · intro h
    exact Or.inr (Or.inr (Or.inl h))

lemma title_mem_iff (doc : HtmlDoc) (url : String) (x : String)
    (hshape : x = "Title too short" ∨ x = "Title too long" ∨ x = "Missing <title>") :
    (x ∈ (analyze_html doc url).issues ↔ x ∈ (titleBlock doc.title).iss) := by
  rw [mem_analyze_issues]
  constructor
  · rintro (h | h | h | h | h | h | h | h)
    · exact h
    · rcases h1Block_iss_cases _ _ h with h2 | h2 <;>
        rcases hshape with rfl | rfl | rfl <;> exact absurd h2 (by decide)
    · rcases metaBlock_iss_cases _ _ h with h2 | h2 | h2 <;>
        rcases hshape with rfl | rfl | rfl <;> exact absurd h2 (by decide)
    · have h2 := noindexBlock_iss_cases _ _ h
      rcases hshape with rfl | rfl | rfl <;> exact absurd h2 (by decide)
    · have h2 := ogBlock_iss_cases _ _ h
      rcases hshape with rfl | rfl | rfl <;> exact absurd h2 (by decide)
    · have h2 := twitterBlock_iss_cases _ _ h
      rcases hshape with rfl | rfl | rfl <;> exact absurd h2 (by decide)
    · rcases imageBlock_iss_cases _ _ h with ⟨k, hk⟩
      rcases hshape with rfl | rfl | rfl <;>
        exact absurd hk.symm (imgIssue_ne k _ (by decide))
    · have h2 := schemaBlock_iss_cases _ _ h
      rcases hshape with rfl | rfl | rfl <;> exact absurd h2 (by decide)
  · intro h
    exact Or.inl h

lemma titleBlock_some_tag (t : String) : (titleBlock (some t)).tag = trimStr t := by
  simp only [titleBlock]
  split
  · rfl
  · split <;> rfl

lemma titleBlock_some_iss (t : String) :
    (titleBlock (some t)).iss =
      if strLen (trimStr t) < 30 then ["Title too short"]
      else if strLen (trimStr t) > 60 then ["Title too long"]
      else [] := by
  simp only [titleBlock]
  split
  · rfl
  · split <;> rfl

lemma metaBlock_some_value (c : String) (h : c ≠ "") :
    (metaBlock (some c)).value = trimStr c := by
  simp only [metaBlock, if_neg h]
  split
  · rfl
  · split <;> rfl

lemma metaBlock_some_iss (c : String) (h : c ≠ "") :
    (metaBlock (some c)).iss =
      if strLen (trimStr c) < 50 then ["Meta desc too short"]
      else if strLen (trimStr c) > 160 then ["Meta desc too long"]
      else [] := by
  simp only [metaBlock, if_neg h]
  split
  · rfl
  · split <;> rfl

/-- C8.  The meta-description rule of `analyze_html`: an absent tag and a tag
with empty content behave identically, storing the Missing sentinel and
raising the missing-meta-description issue; a non-empty content is stored
trimmed, with the too-short issue raised exactly when the trimmed length is
below 50 and the too-long issue exactly when it exceeds 160. -/
theorem meta_description_rule (doc : HtmlDoc) (url : String) :
    ((doc.metaDescription = none ∨ doc.metaDescription = some "") →
      (analyze_html doc url).meta_description = "Missing" ∧
      "Missing meta description" ∈ (analyze_html doc url).issues) ∧
    (∀ c, doc.metaDescription = some c → c ≠ "" →
      (analyze_html doc url).meta_description = trimStr c ∧
      ("Meta desc too short" ∈ (analyze_html doc url).issues ↔ strLen (trimStr c) < 50) ∧
      ("Meta desc too long" ∈ (analyze_html doc url).issues ↔ strLen (trimStr c) > 160)) := by
  constructor
  · intro hm
    have hblock : metaBlock doc.metaDescription =
        ⟨"Missing", ["Missing meta description"], ["Missing meta description tag"]⟩ := by
      rcases hm with h | h <;> rw [h] <;> rfl
    refine ⟨by simp [analyze_html, hblock], ?_⟩
    rw [meta_mem_iff doc url _ (Or.inr (Or.inr rfl)), hblock]
    simp
  · intro c hc hcne
    refine ⟨by simp [analyze_html, hc, metaBlock_some_value c hcne], ?_, ?_⟩
    · rw [meta_mem_iff doc url _ (Or.inl rfl), hc, metaBlock_some_iss c hcne]
      by_cases h50 : strLen (trimStr c) < 50
      · simp [h50]
      · by_cases h160 : strLen (trimStr c) > 160
        · rw [if_neg h50, if_pos h160]
          exact ⟨fun h => absurd (List.mem_singleton.mp h) (by decide),
                 fun h => absurd h h50⟩
        · rw [if_neg h50, if_neg h160]
          exact ⟨fun h => absurd h (List.not_mem_nil _), fun h => absurd h h50⟩
    · rw [meta_mem_iff doc url _ (Or.inr (Or.inl rfl)), hc, metaBlock_some_iss c hcne]
      by_cases h50 : strLen (trimStr c) < 50
      · rw [if_pos h50]
        exact ⟨fun h => absurd (List.mem_singleton.mp h) (by decide),
               fun h => absurd (by omega : strLen (trimStr c) < 50) (by omega)⟩
      · by_cases h160 : strLen (trimStr c) > 160
        · simp [h50, h160]
        · rw [if_neg h50, if_neg h160]
          exact ⟨fun h => absurd h (List.not_mem_nil _), fun h => absurd h h160⟩

/-- C8, witness: the meta-description rule evaluated on the clean page, whose
60-character description is stored trimmed and raises neither length
issue. -/
theorem meta_description_rule_witness :
    (analyze_html docClean pageUrl).meta_description = trimStr cleanMeta ∧
    ¬ ("Meta desc too short" ∈ (analyze_html docClean pageUrl).issues) ∧
    ¬ ("Meta desc too long" ∈ (analyze_html docClean pageUrl).issues) := by
  have h := (meta_description_rule docClean pageUrl).2 cleanMeta rfl (by decide)
  exact ⟨h.1, fun hm => absurd (h.2.1.mp hm) (by decide),
         fun hm => absurd (h.2.2.mp hm) (by decide)⟩

/-- C9, amended.  The title rule of `analyze_html`: with a title element
present, the too-short issue is raised exactly when the trimmed text length
is below 30 and the too-long issue exactly when it exceeds 60 (no length
issue for 30 through 60 inclusive), and an absent title raises the
missing-title issue — but the recorded `title_tag` is the TRIMMED text, not
the raw text (and stays empty when the title is absent). -/
theorem title_rule (doc : HtmlDoc) (url : String) :
    (doc.title = none →
      (analyze_html doc url).title_tag = "" ∧
      "Missing <title>" ∈ (analyze_html doc url).issues) ∧
    (∀ t, doc.title = some t →
      (analyze_html doc url).title_tag = trimStr t ∧
      ("Title too short" ∈ (analyze_html doc url).issues ↔ strLen (trimStr t) < 30) ∧
      ("Title too long" ∈ (analyze_html doc url).issues ↔ strLen (trimStr t) > 60)) := by
  constructor
  · intro hm
    refine ⟨by simp [analyze_html, hm, titleBlock], ?_⟩
    rw [title_mem_iff doc url _ (Or.inr (Or.inr rfl)), hm]
    simp [titleBlock]
  · intro t ht
    refine ⟨by simp [analyze_html, ht, titleBlock_some_tag], ?_, ?_⟩
    · rw [title_mem_iff doc url _ (Or.inl rfl), ht, titleBlock_some_iss]
      by_cases h30 : strLen (trimStr t) < 30
      · simp [h30]
      · by_cases h60 : strLen (trimStr t) > 60
        · rw [if_neg h30, if_pos h60]
          exact ⟨fun h => absurd (List.mem_singleton.mp h) (by decide),
                 fun h => absurd h h30⟩
        · rw [if_neg h30, if_neg h60]
          exact ⟨fun h => absurd h (List.not_mem_nil _), fun h => absurd h h30⟩
    · rw [title_mem_iff doc url _ (Or.inr (Or.inl rfl)), ht, titleBlock_some_iss]
      by_cases h30 : strLen (trimStr t) < 30
      · rw [if_pos h30]
        exact ⟨fun h => absurd (List.mem_singleton.mp h) (by decide),
               fun h => absurd (by omega : strLen (trimStr t) < 30) (by omega)⟩
      · by_cases h60 : strLen (trimStr t) > 60
        · simp [h30, h60]
        · rw [if_neg h30, if_neg h60]
          exact ⟨fun h => absurd h (List.not_mem_nil _), fun h => absurd h h60⟩

/-- C9, witness: the title rule evaluated on the clean page, whose
36-character title is recorded and raises neither length issue. -/
theorem title_rule_witness :
    (analyze_html docClean pageUrl).title_tag = trimStr cleanTitle ∧
    ¬ ("Title too short" ∈ (analyze_html docClean pageUrl).issues) ∧
    ¬ ("Title too long" ∈ (analyze_html docClean pageUrl).issues) := by
  have h := (title_rule docClean pageUrl).2 cleanTitle rfl
  exact ⟨h.1, fun hm => absurd (h.2.1.mp hm) (by decide),
         fun hm => absurd (h.2.2.mp hm) (by decide)⟩

/-- C9, counterexample.  The claim says the RAW title text is recorded; the
code records the stripped text.  On a page whose title carries surrounding
whitespace the recorded `title_tag` differs from the raw text. -/
theorem title_raw_not_recorded :
    docPaddedTitle.title = some " Some reasonably long page title here " ∧
    (analyze_html docPaddedTitle pageUrl).title_tag ≠ " Some reasonably long page title here " ∧
    (analyze_html docPaddedTitle pageUrl).title_tag = "Some reasonably long page title here" := by
  decide

/-- C7.  The image-alt rule: the page origin used as resolution base is the
scheme-plus-host piece of the page URL (ignoring its path); an image whose
src contains the base64 GIF marker or, case-insensitively, `spacer` is
exempt regardless of its alt; a non-exempt image with truthy src and empty
trimmed alt contributes its src resolved against that origin, in order; a
non-exempt image with non-empty trimmed alt contributes nothing.  On the
concrete page the data GIF is exempt and the root-relative photo resolves
origin-relatively. -/
theorem image_alt_rule :
    base_domain pageUrl = "https://example.com" ∧
    (∀ (s : String) (alt : Option String) (rest : List ImgTag) (bd : String),
      (containsStr s "data:image/gif;base64" || containsStr (lowerStr s) "spacer") = true →
      missingAltOf (⟨some s, alt⟩ :: rest) bd = missingAltOf rest bd) ∧
    (∀ (s : String) (alt : Option String) (rest : List ImgTag) (bd : String),
      s ≠ "" →
      (containsStr s "data:image/gif;base64" || containsStr (lowerStr s) "spacer") = false →
      trimStr (alt.getD "") = "" →
      missingAltOf (⟨some s, alt⟩ :: rest) bd = urljoin bd s :: missingAltOf rest bd) ∧
    (∀ (s : String) (alt : Option String) (rest : List ImgTag) (bd : String),
      s ≠ "" →
      (containsStr s "data:image/gif;base64" || containsStr (lowerStr s) "spacer") = false →
      trimStr (alt.getD "") ≠ "" →
      missingAltOf (⟨some s, alt⟩ :: rest) bd = missingAltOf rest bd) ∧
    (analyze_html docAltImgs pageUrl).missing_alt_images =
      ["https://example.com/img/photo.jpg"] ∧
    (analyze_html docAltImgs pageUrl).missing_alt_count = 1 := by
  refine ⟨by decide, ?_, ?_, ?_, by decide, by decide⟩
  · intro s alt rest bd hex
    by_cases hse : s = ""
    · simp [missingAltOf, List.filterMap_cons, hse]
    · rw [Bool.or_eq_true] at hex
      rcases hex with h | h <;> simp [missingAltOf, List.filterMap_cons, hse, h]
  · intro s alt rest bd hne hex halt
    simp only [Bool.or_eq_false_iff] at hex
    simp [missingAltOf, List.filterMap_cons, hne, hex.1, hex.2, halt]
  · intro s alt rest bd hne hex halt
    simp only [Bool.or_eq_false_iff] at hex
    simp [missingAltOf, List.filterMap_cons, hne, hex.1, hex.2, halt]

/-- C7, witness: the image-alt theorem applied to one root-relative image
with an empty alt and to one exempt base64 GIF placeholder. -/
theorem image_alt_rule_witness :
    missingAltOf [⟨some "/img/photo.jpg", some ""⟩] "https://example.com" =
      ["https://example.com/img/photo.jpg"] ∧
    missingAltOf [⟨some "data:image/gif;base64,AAAA", none⟩] "https://example.com" = [] := by
  constructor
  · have h := image_alt_rule.2.2.1 "/img/photo.jpg" (some "") [] "https://example.com"
      (by decide) (by decide) (by decide)
    rw [h]
    decide
  · have h := image_alt_rule.2.1 "data:image/gif;base64,AAAA" none [] "https://example.com"
      (by decide)
    rw [h]
    decide

/-- C10, amended.  A fetch-failure record stores the empty string as its meta
description (which differs from the Missing sentinel) and its only detail
line is the Failed-to-load text; PROVIDED that text does not itself contain
one of the three meta-description markers, the record passes the
double-checked meta-description condition and is counted by `meta_good`. -/
theorem failed_page_meta_good (p : PageInput) (e : String)
    (hfail : p.fetch = Except.error e)
    (h1 : containsStr ("Failed to load: " ++ e) "Missing meta description tag" = false)
    (h2 : containsStr ("Failed to load: " ++ e) "Meta description too short" = false)
    (h3 : containsStr ("Failed to load: " ++ e) "Meta description too long" = false) :
    metaGoodPred (mkRow p (fetchAndAnalyze p)) = true ∧
    (mkRow p (fetchAndAnalyze p)).metaDescription = "" ∧
    ∀ rest, meta_good (mkRow p (fetchAndAnalyze p) :: rest) = meta_good rest + 1 := by
  have hrep : fetchAndAnalyze p = failedReport e := by
    unfold fetchAndAnalyze
    rw [hfail]
  rw [hrep]
  have hrow : (mkRow p (failedReport e)).issuesDetail = "Failed to load: " ++ e := by
    simp [mkRow, failedReport, joinSep]
  have hmd : (mkRow p (failedReport e)).metaDescription = "" := by
    simp [mkRow, failedReport]
  have hpred : metaGoodPred (mkRow p (failedReport e)) = true := by
    simp [metaGoodPred, hrow, hmd, h1, h2, h3]
  refine ⟨hpred, hmd, fun rest => ?_⟩
  simp [meta_good, List.filter_cons, hpred]

/-- C10, counterexample.  The pass condition checks the three markers as
substrings of the joined detail text, so a failure whose reason happens to
contain a marker (here the exception text is exactly a marker) is NOT
counted: `meta_good` is 0 on this one-page batch, where the claim counts
every fetch-failure record. -/
theorem failed_page_meta_good_cex :
    metaGoodPred (mkRow ⟨"post", "T", pageUrl, Except.error "Meta description too short"⟩
      (fetchAndAnalyze ⟨"post", "T", pageUrl, Except.error "Meta description too short"⟩)) = false ∧
    meta_good (processPages
      [⟨"post", "T", pageUrl, Except.error "Meta description too short"⟩]) = 0 := by
  decide

/-- C10, witness: the amended theorem applied to a concrete timed-out fetch,
whose record is counted by `meta_good`. -/
theorem failed_page_meta_good_witness :
    metaGoodPred (mkRow ⟨"post", "T", pageUrl, Except.error "timed out"⟩
      (fetchAndAnalyze ⟨"post", "T", pageUrl, Except.error "timed out"⟩)) = true ∧
    meta_good [mkRow ⟨"post", "T", pageUrl, Except.error "timed out"⟩
      (fetchAndAnalyze ⟨"post", "T", pageUrl, Except.error "timed out"⟩)] = 1 := by
  have h := failed_page_meta_good ⟨"post", "T", pageUrl, Except.error "timed out"⟩ "timed out"
    rfl (by decide) (by decide) (by decide)
  refine ⟨h.1, ?_⟩
  simpa using h.2.2 []

/-- C1, witness: the length law applied to the clean page (no image lacks
alt), where the two lists are equal in length. -/
theorem analyze_issue_detail_lengths_witness :
    (analyze_html docClean pageUrl).missing_alt_count ≤ 1 ∧
    (analyze_html docClean pageUrl).issues_detail.length =
      (analyze_html docClean pageUrl).issues.length :=
  ⟨by decide, (analyze_issue_detail_lengths docClean pageUrl).2 (by decide)⟩

/-- C3, witness: the amended primary-plugin law applied to a one-page batch
whose only page detects no plugin; the primary plugin is Unknown, not
absent. -/
theorem primary_plugin_amended_witness :
    primary_plugin (processPages [⟨"post", "T", pageUrl, Except.ok docClean⟩]) =
      some "Unknown" :=
  (primary_plugin_amended [⟨"post", "T", pageUrl, Except.ok docClean⟩]).1.trans (by decide)
